import Mathlib

/-!
Shallow embedding of the caching layer and parsing helpers of
`proj2_nps.py` (project `qiyanl/507proj2Winter2021`).

The Python program keeps a process-wide cache dictionary mapping request
URLs to raw response bodies, persisted to a single JSON file.  We embed:

- the cache dictionary as an association list `Cache` with Python-dict
  lookup and in-place-overwrite insertion semantics;
- the backing file as a `FileContent` value: the file can be missing,
  unreadable, hold unparseable text, or hold the JSON serialization of a
  string-to-string mapping (the external `json.dumps`/`json.loads` pair
  is modelled by storing the mapping itself in the `parseable`
  constructor, since `dumps` followed by `loads` is the identity on flat
  string-to-string dictionaries);
- the network as an oracle `net : String → Option String`, where `none`
  models a transport-level exception raised by `requests.get`;
- write-side disk failures by a `writable : Bool` flag: when it is
  `false`, `save_cache` raises (returns an error) as an uncaught
  `open(..., "w")` failure would;
- the observable effect trace by a state record `St` holding the
  in-memory cache, the disk content, and the log of network requests
  issued so far.
-/

/-- The in-memory cache dictionary: Python `dict` from URL strings to raw
response-body strings, embedded as an association list with unique keys. -/
abbrev Cache := List (String × String)

/-- Python dictionary membership and read: `cache[key]` when present. -/
def lookupC : Cache → String → Option String
  | [], _ => none
  | (k, v) :: rest, key => if k = key then some v else lookupC rest key

/-- Python dictionary write `cache[key] = val`: overwrites the binding of
`key` when present, otherwise appends a new binding. -/
def insertC : Cache → String → String → Cache
  | [], key, val => [(key, val)]
  | (k, v) :: rest, key, val =>
      if k = key then (k, val) :: rest else (k, v) :: insertC rest key val

/-- The state of the single backing file `NationalSite.json`. -/
inductive FileContent where
  | missing
  | unreadable
  | unparseable
  | parseable (m : Cache)
deriving DecidableEq, Repr

/-- Errors the Python functions can raise: a failing `requests.get` on a
cache miss, or a failing `open(..., "w")` inside `save_cache`. -/
inductive CacheErr where
  | netFail
  | saveFail
deriving DecidableEq, Repr

/-- Embedding of `open_cache` (src lines 16-36): try to open, read and
JSON-parse the cache file; a bare `except` turns every failure (missing
file, unreadable file, unparseable contents) into the empty dictionary.
The function is total: no error ever reaches the caller. -/
def open_cache : FileContent → Cache
  | .parseable m => m
  | _ => []

/-- Embedding of `save_cache` (src lines 40-55): serialize the whole
dictionary and overwrite the backing file.  There is no `try` around the
write: when the file cannot be written (`writable = false`) the exception
propagates to the caller as `Except.error .saveFail`. -/
def save_cache (writable : Bool) (cache_dict : Cache) : Except CacheErr FileContent :=
  if writable then .ok (.parseable cache_dict) else .error .saveFail

/-- Observable state threaded through the cached fetcher: the in-memory
cache, the backing-file content, and the log of URLs for which the
network transport (`requests.get`) has been invoked. -/
structure St where
  cache : Cache
  disk : FileContent
  netLog : List String
deriving DecidableEq, Repr

/-- How many times the network transport has been invoked for `key`. -/
def netCount (st : St) (key : String) : Nat :=
  st.netLog.count key

/-- Embedding of `make_request_with_cache` (src lines 57-81).  On a hit
the stored value is returned with no side effect.  On a miss,
`requests.get(baseurl).text` runs first (a transport failure propagates
with the state untouched, since the dictionary assignment never runs);
on success the body is inserted into the cache, `save_cache` runs
synchronously (its failure propagates after the in-memory insert), and
the body is returned. -/
def make_request_with_cache (net : String → Option String) (writable : Bool)
    (baseurl : String) (st : St) : Except CacheErr String × St :=
  match lookupC st.cache baseurl with
  | some v => (.ok v, st)
  | none =>
    match net baseurl with
    | none => (.error .netFail, st)
    | some body =>
      let cache1 := insertC st.cache baseurl body
      let st1 : St := { cache := cache1, disk := st.disk, netLog := st.netLog ++ [baseurl] }
      match save_cache writable cache1 with
      | .ok d => (.ok body, { st1 with disk := d })
      | .error e => (.error e, st1)

/-- A sequence of `n` calls `make_request_with_cache` for the same URL,
threading the state; returns the list of results and the final state. -/
def fetch_seq (net : String → Option String) (writable : Bool) (key : String) :
    Nat → St → List (Except CacheErr String) × St
  | 0, st => ([], st)
  | n + 1, st =>
    let r := make_request_with_cache net writable key st
    let rest := fetch_seq net writable key n r.2
    (r.1 :: rest.1, rest.2)

/-- Embedding of the `NationalSite` class (src lines 83-109): a record of
the five extracted string attributes. -/
structure NationalSite where
  category : String
  name : String
  address : String
  zipcode : String
  phone : String
deriving DecidableEq, Repr

/-- The markup elements `get_site_instance` queries on a site page (src
lines 160-197): each `soup.find` either locates an element (whose text is
carried here) or returns `None`, modelled as `Option String`. -/
structure ParkPage where
  postalCode : Option String
  addressLocality : Option String
  addressRegion : Option String
  tel : Option String
  heroTitle : Option String
  heroDesignation : Option String
deriving DecidableEq, Repr

/-- Embedding of the field-extraction logic of `get_site_instance` (src
lines 163-198): each field found is stripped of surrounding whitespace,
each field whose element is `None` becomes the empty string, the address
is the locality and the region joined by a comma and a space, and the
five values are packed into a `NationalSite`. -/
def get_site_instance (page : ParkPage) : NationalSite :=
  let code := match page.postalCode with
    | some s => s.trim
    | none => ""
  let addr_1 := match page.addressLocality with
    | some s => s.trim
    | none => ""
  let addr_2 := match page.addressRegion with
    | some s => s.trim
    | none => ""
  let address := addr_1 ++ ", " ++ addr_2
  let phone := match page.tel with
    | some s => s.trim
    | none => ""
  let name := match page.heroTitle with
    | some s => s.trim
    | none => ""
  let park_type := match page.heroDesignation with
    | some s => s.trim
    | none => ""
  { category := park_type, name := name, address := address, zipcode := code, phone := phone }

/-- Result of `get_nearby_places`: the empty dictionary returned when the
zip code is falsy, or the dictionary parsed from the fetched body (the
external `json.loads` and the console printing are opaque here, so the
parsed dictionary is represented by the raw body it was parsed from). -/
inductive PlacesResult where
  | emptyResult
  | parsed (raw : String)
deriving DecidableEq, Repr

/-- Embedding of `get_nearby_places` (src lines 241-278): when the site's
zip code is the empty string (falsy in Python) the function returns the
empty dictionary at once with no fetch; otherwise it builds the MapQuest
URL, fetches it through the cache, and saves the cache again before
returning the parsed result.  Fetch and save failures propagate. -/
def get_nearby_places (net : String → Option String) (writable : Bool)
    (apiKey : String) (site_object : NationalSite) (st : St) :
    Except CacheErr PlacesResult × St :=
  let code := site_object.zipcode
  if code.isEmpty then (.ok .emptyResult, st)
  else
    let url := ("http://www.mapquestapi.com/search/v2/radius?key=") ++ apiKey ++
      ("&origin=") ++ code ++ ("&radius=10&maxMatches=10&ambiguities=ignore&outFormat=json")
    match make_request_with_cache net writable url st with
    | (.ok page, st1) =>
      match save_cache writable st1.cache with
      | .ok d => (.ok (.parsed page), { st1 with disk := d })
      | .error e => (.error e, st1)
    | (.error e, st1) => (.error e, st1)

theorem lookupC_insertC_self (c : Cache) (k v : String) :
    lookupC (insertC c k v) k = some v := by
  induction c with
  | nil => simp [insertC, lookupC]
  | cons hd tl ih =>
    obtain ⟨k0, v0⟩ := hd
    by_cases h : k0 = k
    · simp [insertC, h, lookupC]
    · simp [insertC, h, lookupC, ih]

theorem lookupC_insertC_ne (c : Cache) (k v k2 : String) (h : k2 ≠ k) :
    lookupC (insertC c k v) k2 = lookupC c k2 := by
  induction c with
  | nil => simp [insertC, lookupC, Ne.symm h]
  | cons hd tl ih =>
    obtain ⟨k0, v0⟩ := hd
    by_cases h0 : k0 = k
    · subst h0
      simp [insertC, lookupC, Ne.symm h]
    · simp [insertC, h0, lookupC, ih]

/-- On a cache hit the fetcher returns the stored value and the state is
bit-for-bit unchanged. -/
theorem hit_eq (net : String → Option String) (writable : Bool) (key v : String)
    (st : St) (hhit : lookupC st.cache key = some v) :
    make_request_with_cache net writable key st = (.ok v, st) := by
  simp [make_request_with_cache, hhit]

/-- Iterating the fetcher from a hit state returns the stored value every
time and never changes the state. -/
theorem seq_hit (net : String → Option String) (writable : Bool) (key v : String)
    (st : St) (hhit : lookupC st.cache key = some v) (n : Nat) :
    fetch_seq net writable key n st = (List.replicate n (.ok v), st) := by
  induction n with
  | zero => simp [fetch_seq]
  | succ m ih =>
    simp [fetch_seq, hit_eq net writable key v st hhit, ih, List.replicate]

/-- On a miss with a successful transport and a writable disk, the
fetcher returns the body, overwrites the cache binding, logs exactly one
network call, and writes the whole updated dictionary to disk. -/
theorem miss_success (net : String → Option String) (key body : String) (st : St)
    (hmiss : lookupC st.cache key = none) (hnet : net key = some body) :
    make_request_with_cache net true key st =
      (.ok body,
       { cache := insertC st.cache key body,
         disk := .parseable (insertC st.cache key body),
         netLog := st.netLog ++ [key] }) := by
  simp [make_request_with_cache, hmiss, hnet, save_cache]

/-- A network oracle that always answers with the same body. -/
def netConst (body : String) : String → Option String := fun _ => some body

/-- A network oracle on which every request raises. -/
def netNone : String → Option String := fun _ => none

/-- A fresh process state: empty cache, no cache file, no requests yet. -/
def stEmpty : St := { cache := [], disk := .missing, netLog := [] }

/-- A state whose cache already holds the binding of k to v. -/
def stHit : St := { cache := [(("k"), ("v"))], disk := .missing, netLog := [] }

/-- A state whose cache holds an unrelated binding of x to y. -/
def stXY : St := { cache := [(("x"), ("y"))], disk := .missing, netLog := [] }

/-- C1: if a cache-miss call of the fetcher returns normally with a body,
the resulting in-memory store maps the key to that body, and the on-disk
representation already contains the key: a fresh load of the resulting
disk, with no further fetch, yields a mapping sending the key to the
fetched value. -/
theorem fetch_write_through (net : String → Option String) (writable : Bool)
    (key body : String) (st st' : St)
    (hmiss : lookupC st.cache key = none)
    (hret : make_request_with_cache net writable key st = (.ok body, st')) :
    lookupC st'.cache key = some body ∧
    lookupC (open_cache st'.disk) key = some body := by
  simp only [make_request_with_cache, hmiss] at hret
  cases hb : net key with
  | none =>
    rw [hb] at hret
    simp at hret
  | some b =>
    rw [hb] at hret
    cases writable with
    | false => simp [save_cache] at hret
    | true =>
      simp [save_cache] at hret
      obtain ⟨hb2, hst⟩ := hret
      subst hb2
      subst hst
      simp [open_cache, lookupC_insertC_self]

theorem fetch_write_through_witness :
    lookupC (make_request_with_cache (netConst ("BODY")) true ("k") stEmpty).2.cache ("k") =
      some ("BODY") ∧
    lookupC (open_cache (make_request_with_cache (netConst ("BODY")) true ("k") stEmpty).2.disk)
      ("k") = some ("BODY") :=
  fetch_write_through (netConst ("BODY")) true ("k") ("BODY") stEmpty
    (make_request_with_cache (netConst ("BODY")) true ("k") stEmpty).2 rfl rfl

/-- C2: on a key already present in the store, every call of the fetcher
returns the stored value with the whole state bit-for-bit unchanged (so
no network request and no disk write occur), and any number of repeated
calls all return that identical value while the store never changes. -/
theorem fetch_hit_idempotent (net : String → Option String) (writable : Bool)
    (key v : String) (st : St) (hhit : lookupC st.cache key = some v) :
    make_request_with_cache net writable key st = (.ok v, st) ∧
    ∀ n, fetch_seq net writable key n st = (List.replicate n (.ok v), st) :=
  ⟨hit_eq net writable key v st hhit, fun n => seq_hit net writable key v st hhit n⟩

theorem fetch_hit_idempotent_witness :
    make_request_with_cache (netConst ("OTHER")) true ("k") stHit = (.ok ("v"), stHit) ∧
    fetch_seq (netConst ("OTHER")) true ("k") 3 stHit =
      (List.replicate 3 (.ok ("v")), stHit) :=
  ⟨(fetch_hit_idempotent (netConst ("OTHER")) true ("k") ("v") stHit rfl).1,
   (fetch_hit_idempotent (netConst ("OTHER")) true ("k") ("v") stHit rfl).2 3⟩

/-- C3: starting from a state whose store lacks the key, any sequence of
one or more fetches of that key invokes the network transport exactly
once, on the first call (the request log grows by exactly that one key),
and every call in the sequence returns the fetched body, the later ones
served from memory. -/
theorem single_fetch_guarantee (net : String → Option String) (key body : String)
    (st : St) (n : Nat)
    (hmiss : lookupC st.cache key = none) (hnet : net key = some body) :
    (fetch_seq net true key (n + 1) st).1 = List.replicate (n + 1) (.ok body) ∧
    (fetch_seq net true key (n + 1) st).2.netLog = st.netLog ++ [key] := by
  have h1 := miss_success net key body st hmiss hnet
  have hh : lookupC (insertC st.cache key body) key = some body :=
    lookupC_insertC_self st.cache key body
  have h2 := seq_hit net true key body
    { cache := insertC st.cache key body,
      disk := .parseable (insertC st.cache key body),
      netLog := st.netLog ++ [key] } hh n
  constructor
  · simp [fetch_seq, h1, h2, List.replicate]
  · simp [fetch_seq, h1, h2]

theorem single_fetch_guarantee_witness :
    (fetch_seq (netConst ("B")) true ("k") 3 stEmpty).1 =
      List.replicate 3 (.ok ("B")) ∧
    (fetch_seq (netConst ("B")) true ("k") 3 stEmpty).2.netLog =
      stEmpty.netLog ++ [("k")] :=
  single_fetch_guarantee (netConst ("B")) ("k") ("B") stEmpty 2 rfl rfl

/-- C4: saving a mapping and then loading the resulting disk content from
a fresh process yields a mapping equal to the one saved. -/
theorem save_load_round_trip (m : Cache) (d : FileContent)
    (hsave : save_cache true m = .ok d) : open_cache d = m := by
  simp [save_cache] at hsave
  subst hsave
  simp [open_cache]

theorem save_load_round_trip_witness :
    open_cache (.parseable [(("a"), ("1")), (("b"), ("2"))]) =
      [(("a"), ("1")), (("b"), ("2"))] :=
  save_load_round_trip [(("a"), ("1")), (("b"), ("2"))]
    (.parseable [(("a"), ("1")), (("b"), ("2"))]) rfl

/-- C5: on every backing-file state that is not a parseable serialized
mapping (missing file, unreadable file, unparseable contents), loading
returns the empty mapping; the function is total, so no error reaches
the caller. -/
theorem load_recovery (fc : FileContent) (h : ∀ m : Cache, fc ≠ .parseable m) :
    open_cache fc = [] := by
  cases fc with
  | parseable m => exact absurd rfl (h m)
  | missing => rfl
  | unreadable => rfl
  | unparseable => rfl

theorem load_recovery_witness : open_cache .unparseable = [] :=
  load_recovery .unparseable (fun _ hm => FileContent.noConfusion hm)

/-- C6: when the network transport raises on a cache miss, the failure
propagates from the fetcher unmodified and the whole state, in-memory
store and disk included, is exactly as it was before the call. -/
theorem net_failure_propagates (net : String → Option String) (writable : Bool)
    (key : String) (st : St)
    (hmiss : lookupC st.cache key = none) (hnet : net key = none) :
    make_request_with_cache net writable key st = (.error .netFail, st) := by
  simp [make_request_with_cache, hmiss, hnet]

theorem net_failure_propagates_witness :
    make_request_with_cache netNone true ("k") stEmpty = (.error .netFail, stEmpty) :=
  net_failure_propagates netNone true ("k") stEmpty rfl rfl

/-- C7: when the backing file cannot be written, saving any mapping
raises, and the failure also propagates through a cache-miss call of the
fetcher instead of being caught, so the mutation is never reported as
durable. -/
theorem save_failure_fatal (m : Cache) (net : String → Option String)
    (key body : String) (st : St)
    (hmiss : lookupC st.cache key = none) (hnet : net key = some body) :
    save_cache false m = .error .saveFail ∧
    (make_request_with_cache net false key st).1 = .error .saveFail := by
  refine ⟨rfl, ?_⟩
  simp [make_request_with_cache, hmiss, hnet, save_cache]

theorem save_failure_fatal_witness :
    save_cache false [] = .error .saveFail ∧
    (make_request_with_cache (netConst ("B")) false ("k") stEmpty).1 =
      .error .saveFail :=
  save_failure_fatal [] (netConst ("B")) ("k") ("B") stEmpty rfl rfl

/-- A parsed site page on which every queried element is absent. -/
def pageAllAbsent : ParkPage :=
  { postalCode := none, addressLocality := none, addressRegion := none,
    tel := none, heroTitle := none, heroDesignation := none }

/-- C8 counterexample: on a page with every element absent the extracted
address is the comma-space separator, not the empty string, so not all
five fields default to the empty string. -/
theorem site_defaults_counterexample :
    (get_site_instance pageAllAbsent).address ≠ ("") := by
  decide

/-- C8 (amended): the category, name, postal code and phone fields each
default to the empty string when the corresponding element is absent;
the address field is built by joining its two components with a comma
and a space, each component defaulting to the empty string, so when both
address elements are absent the address is the two-character separator
rather than the empty string. -/
theorem site_field_defaults (p : ParkPage) :
    (p.heroDesignation = none → (get_site_instance p).category = ("")) ∧
    (p.heroTitle = none → (get_site_instance p).name = ("")) ∧
    (p.postalCode = none → (get_site_instance p).zipcode = ("")) ∧
    (p.tel = none → (get_site_instance p).phone = ("")) ∧
    (p.addressLocality = none → p.addressRegion = none →
      (get_site_instance p).address = (", ")) := by
  refine ⟨?_, ?_, ?_, ?_, ?_⟩
  · intro h; simp [get_site_instance, h]
  · intro h; simp [get_site_instance, h]
  · intro h; simp [get_site_instance, h]
  · intro h; simp [get_site_instance, h]
  · intro h1 h2; simp [get_site_instance, h1, h2]

theorem site_field_defaults_witness :
    (get_site_instance pageAllAbsent).category = ("") ∧
    (get_site_instance pageAllAbsent).name = ("") ∧
    (get_site_instance pageAllAbsent).zipcode = ("") ∧
    (get_site_instance pageAllAbsent).phone = ("") ∧
    (get_site_instance pageAllAbsent).address = (", ") :=
  ⟨(site_field_defaults pageAllAbsent).1 rfl,
   (site_field_defaults pageAllAbsent).2.1 rfl,
   (site_field_defaults pageAllAbsent).2.2.1 rfl,
   (site_field_defaults pageAllAbsent).2.2.2.1 rfl,
   (site_field_defaults pageAllAbsent).2.2.2.2 rfl rfl⟩

/-- A site record whose postal code is the empty string. -/
def siteNoZip : NationalSite :=
  { category := ("National Park"), name := ("Somewhere"),
    address := ("Town, ST"), zipcode := (""), phone := ("") }

/-- C9: on a site object whose postal code is the empty string, the
places lookup returns the empty result immediately with the state
bit-for-bit unchanged: the fetcher is never invoked, so there is no
cache lookup, no network call and no disk write. -/
theorem nearby_places_empty_zip (net : String → Option String) (writable : Bool)
    (apiKey : String) (site : NationalSite) (st : St)
    (hz : site.zipcode = ("")) :
    get_nearby_places net writable apiKey site st = (.ok .emptyResult, st) := by
  have he : site.zipcode.isEmpty = true := by rw [hz]; decide
  simp [get_nearby_places, he]

theorem nearby_places_empty_zip_witness :
    get_nearby_places (netConst ("B")) true ("KEY") siteNoZip stEmpty =
      (.ok .emptyResult, stEmpty) :=
  nearby_places_empty_zip (netConst ("B")) true ("KEY") siteNoZip stEmpty rfl

/-- C10: a fetch of one key never removes, overwrites or alters the
binding of any other key: whatever the outcome (hit, network failure,
save failure or successful miss), every other key maps to the same value
before and after the call. -/
theorem fetch_frame (net : String → Option String) (writable : Bool)
    (key k2 : String) (st : St) (hne : k2 ≠ key) :
    lookupC (make_request_with_cache net writable key st).2.cache k2 =
      lookupC st.cache k2 := by
  cases hl : lookupC st.cache key with
  | some v => simp [make_request_with_cache, hl]
  | none =>
    cases hb : net key with
    | none => simp [make_request_with_cache, hl, hb]
    | some body =>
      cases writable with
      | false =>
        simp [make_request_with_cache, hl, hb, save_cache,
          lookupC_insertC_ne st.cache key body k2 hne]
      | true =>
        simp [make_request_with_cache, hl, hb, save_cache,
          lookupC_insertC_ne st.cache key body k2 hne]

theorem fetch_frame_witness :
    lookupC (make_request_with_cache (netConst ("B")) true ("k") stXY).2.cache ("x") =
      lookupC stXY.cache ("x") :=
  fetch_frame (netConst ("B")) true ("k") ("x") stXY (by decide)
